import Mathlib

/-!
# Formal model of the `docio` documentation-resolution engine

A shallow embedding of `src/docio/core.py`: path resolution for
documentation files (`_find_doc_file`), content retrieval (`get_doc`),
the `docio` decorator (registry append + short-summary derivation),
`show_doc`, the AST scanner (`scan_file_for_docio`), the include/exclude
filter (`_should_process_file`) and stub generation
(`auto_generate_stubs`).

File-system paths are modelled as lists of path segments; the file
system itself is a pure structure giving existence and readability of
paths, so that every operation of the engine is a total Lean function.
-/

namespace Docio

/-- A file-system path, as a list of segments (already resolved/absolute). -/
abbrev FPath := List String

/-- Pure model of the file system: which paths exist, and the content a
`read_text` call yields (`none` models a read failure: permission error,
undecodable bytes, ...). -/
structure FS where
  pathExists : FPath → Bool
  readFile : FPath → Option String

/-- Worker for Python `str.split` on character lists: scan left to
right, cutting at each non-overlapping occurrence of the (non-empty)
separator `s0 :: srest`; `cur` holds the reversed current segment.
Recursion is structural on a fuel bounded below by the scanned length,
so that the kernel can evaluate it; the zero-fuel case is unreachable
whenever `fuel ≥ s.length`. -/
def splitCharsGo (s0 : Char) (srest : List Char) :
    Nat → List Char → List Char → List (List Char)
  | _, [], cur => [cur.reverse]
  | 0, s, cur => [cur.reverse ++ s]
  | fuel + 1, c :: rest, cur =>
      if (s0 :: srest).isPrefixOf (c :: rest) then
        cur.reverse :: splitCharsGo s0 srest fuel (rest.drop srest.length) []
      else splitCharsGo s0 srest fuel rest (c :: cur)

/-- Python `str.split` with a separator, on character lists.  Python
rejects an empty separator; the model returns the string whole in that
(never exercised) case. -/
def splitChars (s sep : List Char) : List (List Char) :=
  match sep with
  | [] => [s]
  | s0 :: srest => splitCharsGo s0 srest s.length s []

/-- Python `s.split(sep)` (no limit). -/
def pySplit (s sep : String) : List String :=
  (splitChars s.data sep.data).map String.mk

/-- Python `sep.join(parts)`. -/
def pyJoin (sep : String) (parts : List String) : String :=
  ⟨List.intercalate sep.data (parts.map String.data)⟩

/-- Python `s.replace(old, new)` for a non-empty `old`: replace every
non-overlapping occurrence, left to right (equal to splitting on `old`
and re-joining with `new`). -/
def pyReplace (s old new : String) : String :=
  pyJoin new (pySplit s old)

/-- The whitespace characters of Python `str.strip()` (the
ASCII ones; no content in the repository carries non-ASCII spacing). -/
def isPyWhitespace (c : Char) : Bool :=
  c = ' ' ∨ c = '\t' ∨ c = '\n' ∨ c = '\r' ∨ c = '\x0b' ∨ c = '\x0c'

/-- Python `s.strip()`. -/
def pyStrip (s : String) : String :=
  ⟨((s.data.dropWhile isPyWhitespace).reverse.dropWhile
      isPyWhitespace).reverse⟩

/-- Python `s.startswith(pat)`. -/
def pyStartsWith (s pat : String) : Bool :=
  pat.data.isPrefixOf s.data

/-- Python `s.endswith(pat)`. -/
def pyEndsWith (s pat : String) : Bool :=
  pat.data.isSuffixOf s.data

/-- Python `s.lower()` (on the ASCII identifiers the scanner meets). -/
def pyLower (s : String) : String :=
  ⟨s.data.map Char.toLower⟩

/-- Python slicing `s[:n]`. -/
def pyTake (s : String) (n : Nat) : String :=
  ⟨s.data.take n⟩

/-- Python `s.split(sep, 2)`: split at the first two occurrences only,
the remainder is kept whole (re-joined with the separator). -/
def pySplit2 (s sep : String) : List String :=
  let parts := pySplit s sep
  match parts with
  | p0 :: p1 :: p2 :: rest =>
      if rest.isEmpty then [p0, p1, p2]
      else [p0, p1, pyJoin sep (p2 :: rest)]
  | other => other

/-- Python truthiness of an `Optional[str]`: `None` and `""` are falsy. -/
def truthyStr : Option String → Bool
  | none => false
  | some s => s ≠ ""

/-- Model of `qualname.split('.')[-1]`: the last dot-separated segment
(`pySplit` never returns an empty list, so the default is never used). -/
def lastDotSegment (qualname : String) : String :=
  (pySplit qualname ".").getLastD ""

/-- Model of Python `pathlib.Path.stem` on a file name: the name without
its final extension (a final dot-suffix is dropped unless the dot is the
first character). -/
def pathStem (name : String) : String :=
  let parts := pySplit name "."
  match parts with
  | [] => name
  | [_] => name
  | "" :: [_] => name
  | _ => pyJoin "." parts.dropLast

/-- Model of the Python object an annotation is applied to, carrying
exactly the attributes `core.py` reads or writes.

* `hasModule` — whether `inspect.getmodule` finds a module;
* `moduleName` — the module's `__name__`;
* `qualname` — the `__qualname__` attribute when present;
* `name` — the `__name__` attribute (always present on classes/functions);
* `hasFile` — whether the module has a usable `__file__` (only consulted
  for `__main__`);
* `sourceRel` — the module's source file path relative to the package
  root, as a non-empty segment list (`none` models `Path.relative_to`
  raising `ValueError`/`OSError`, i.e. a source file outside the root);
* `doc` — the `__doc__` slot; `inspect.getdoc` is modelled as reading it
  (its whitespace clean-up is not modelled, no claim depends on it);
* `docioFull` — the hidden `__docio_full__` attribute (`none` = absent). -/
structure DObj where
  hasModule : Bool
  moduleName : String
  qualname : Option String
  name : String
  hasFile : Bool
  sourceRel : Option (String × List String)
  doc : Option String
  docioFull : Option String
deriving Repr, DecidableEq

/-- Model of `getattr(o, '__qualname__', o.__name__)`. -/
def DObj.qualnameOrName (o : DObj) : String :=
  o.qualname.getD o.name

/-- Model of
`module_parts[:-1] + [module_parts[-1].replace('.py', '')]` joined with
`"/"` — the module path of a source file under `src/`, `tests/` or
`examples/`.  `String.replace` replaces every occurrence, as Python
`str.replace` does. -/
def modulePathOfParts (parts : List String) : String :=
  match parts with
  | [] => ""
  | _ =>
      pyJoin "/"
        (parts.dropLast ++ [pyReplace (parts.getLastD "") ".py" ""])

/-- The `(base_dir, module_path)` derivation of `_find_doc_file`
(lines 90–125 of `core.py`): mirror the source location under the three
recognized top-level areas, with fallbacks for `__main__` and for files
outside the root.  `base_dir = ""` is rendered as `none`. -/
def deriveLocation (o : DObj) : Option String × String :=
  match o.sourceRel with
  | some (p0, restParts) =>
      if p0 = "src" ∨ p0 = "tests" ∨ p0 = "examples" then
        (some p0, modulePathOfParts restParts)
      else
        if o.moduleName = "__main__" then
          (none, pathStem ((p0 :: restParts).getLastD ""))
        else
          (none, pyReplace o.moduleName "." "/")
  | none =>
      (none, pyReplace o.moduleName "." "/")

/-- Joining a multi-segment string (such as a `module_path` or an explicit
override) onto a path, as `pathlib`'s `/` operator does: the string's
slash-separated segments are appended. -/
def joinStr (base : FPath) (s : String) : FPath :=
  base ++ pySplit s "/"

/-- The convention-based part of `_find_doc_file` (no explicit override):
derive `(base_dir, module_path)`, probe the module-path-qualified
candidates and then the flat candidates under `docs/<base_dir>`, after
checking that this search base exists.  The special `__main__`-without-
`__file__` case returns `none` before any derivation. -/
def findDocFileConvention (fs : FS) (r : FPath) (o : DObj) (qn : String) :
    Option FPath :=
  if o.moduleName = "__main__" ∧ ¬ o.hasFile then none
  else
    let loc := deriveLocation o
    let baseDir := loc.1
    let modulePath := loc.2
    let docCandidates := [qn ++ ".md", lastDotSegment qn ++ ".md"]
    let docsBase := r ++ ["docs"]
    let searchBase :=
      match baseDir with
      | some b => docsBase ++ [b]
      | none => docsBase
    if ¬ fs.pathExists searchBase then none
    else
      let tier1 :=
        if modulePath ≠ "" then
          docCandidates.map (fun f => joinStr searchBase modulePath ++ [f])
        else []
      let tier2 := docCandidates.map (fun f => searchBase ++ [f])
      (tier1 ++ tier2).find? fs.pathExists

/-- The body of `_find_doc_file` once the qualified name is known: bail
out without a root, resolve a truthy explicit override as the single
path `root/docs/<override>`, otherwise search by convention. -/
def findDocFileNamed (fs : FS) (root : Option FPath) (o : DObj)
    (filename : Option String) (qn : String) : Option FPath :=
  match root with
  | none => none
  | some r =>
      match filename with
      | some f =>
          if f = "" then findDocFileConvention fs r o qn
          else
            let candidate := joinStr (r ++ ["docs"]) f
            if fs.pathExists candidate then some candidate else none
      | none => findDocFileConvention fs r o qn

/-- Model of `_find_doc_file(obj, filename)`: locate the Markdown
documentation file for an object.  `root` is the result of
`_get_package_root()` (`none` when the root cannot be determined).
Returns the first existing candidate path, `none` otherwise; never
fails.  The qualified name falls back to `__name__` and a falsy result
aborts, as `getattr(obj, "__qualname__", getattr(obj, "__name__", None))`
followed by the `if not qualname` check does. -/
def findDocFile (fs : FS) (root : Option FPath) (o : DObj)
    (filename : Option String) : Option FPath :=
  if ¬ o.hasModule then none
  else
    match o.qualname with
    | none =>
        if o.name = "" then none
        else findDocFileNamed fs root o filename o.name
    | some qn =>
        if qn = "" then none
        else findDocFileNamed fs root o filename qn

/-- The error raised by `get_doc`: a `DocNotFoundError` carrying its
message.  Both a missing document and a failed read raise this one
condition. -/
structure DocNotFoundErr where
  msg : String
deriving Repr, DecidableEq

/-- Model of `get_doc(obj, filename)`: read the resolved documentation
file verbatim; fall back to the object's non-empty docstring when no
file resolves; otherwise (and on any read failure) raise
`DocNotFoundError`. -/
def get_doc (fs : FS) (root : Option FPath) (o : DObj)
    (filename : Option String) : Except DocNotFoundErr String :=
  match findDocFile fs root o filename with
  | none =>
      match o.doc with
      | some d =>
          if d ≠ "" then .ok d
          else .error ⟨"No documentation file found for " ++ o.qualnameOrName⟩
      | none => .error ⟨"No documentation file found for " ++ o.qualnameOrName⟩
  | some p =>
      match fs.readFile p with
      | some content => .ok content
      | none => .error ⟨"Failed to read documentation file " ++
          pyJoin "/" p⟩

/-- Frontmatter stripping of the decorator (lines 222–228 of `core.py`):
when the content starts with the substring `"---"`, split on `"---"` with
`maxsplit=2`; when that yields three parts (at least two occurrences),
the third part, stripped, becomes the content for extraction. -/
def stripFrontmatter (s : String) : String :=
  if pyStartsWith s "---" then
    match pySplit2 s "---" with
    | [_, _, p2] => pyStrip p2
    | _ => s
  else s

/-- Model of
`[p.strip() for p in content.split('\n\n') if p.strip()]`. -/
def paragraphsOf (s : String) : List String :=
  ((pySplit s "\n\n").map pyStrip).filter (fun p => p ≠ "")

/-- Model of `para.replace('\n', ' ').strip()`. -/
def collapsePara (p : String) : String :=
  pyStrip (pyReplace p "\n" " ")

/-- The decorator's first-paragraph loop: walk the paragraphs, skip the
ones starting with `'#'`, collapse and return the first other one;
`""` when every paragraph is a heading (or there are none). -/
def firstNonHeading : List String → String
  | [] => ""
  | p :: ps => if pyStartsWith p "#" then firstNonHeading ps else collapsePara p

/-- Length limit of the decorator:
`if len(first_para) > 200: first_para = first_para[:197] + "..."`. -/
def truncate200 (s : String) : String :=
  if s.length > 200 then pyTake s 197 ++ "..." else s

/-- The full short-summary derivation the decorator applies to retrieved
content (lines 221–244 of `core.py`): strip frontmatter, split into
paragraphs, take the first non-heading paragraph (falling back to the
first paragraph when all are headings), truncate to 200 characters. -/
def derivedSummary (docContent : String) : String :=
  let body := stripFrontmatter docContent
  let paragraphs := paragraphsOf body
  let fp := firstNonHeading paragraphs
  let fp2 :=
    if fp = "" then
      match paragraphs with
      | [] => fp
      | p :: _ => collapsePara p
    else fp
  truncate200 fp2

/-- The `__doc__` value the decorator assigns on successful retrieval:
the derived summary, or a "See documentation" placeholder when the
summary came out empty (line 245 of `core.py`). -/
def summaryDoc (o : DObj) (content : String) : String :=
  if derivedSummary content ≠ "" then derivedSummary content
  else "See documentation for " ++ o.qualnameOrName

/-- The process-wide `_DOCIO_REGISTRY`: an ordered list of
`(object, filename_override)` pairs. -/
abbrev Registry := List (DObj × Option String)

/-- Model of the `docio` decorator body (lines 207–257 of `core.py`):
append to the registry unconditionally, then attempt retrieval.  On
success, cache the full content on `__docio_full__` and overwrite
`__doc__` with the derived summary (or a "See documentation" placeholder
when the summary is empty).  On `DocNotFoundError`, keep a truthy
`__doc__`, otherwise set the "Documentation pending" placeholder.  The
decorated object is always returned; no failure propagates. -/
def docioDecorate (fs : FS) (root : Option FPath) (reg : Registry)
    (o : DObj) (filename : Option String) : DObj × Registry :=
  let reg' := reg ++ [(o, filename)]
  match get_doc fs root o filename with
  | .ok content =>
      let o2 := { o with docioFull := some content,
                         doc := some (summaryDoc o content) }
      (o2, reg')
  | .error _ =>
      if truthyStr o.doc then (o, reg')
      else
        let pending := "Documentation pending for " ++ o.qualnameOrName
        ({ o with doc := some pending }, reg')

/-- Model of `show_doc(obj)`: return the cached `__docio_full__`
attribute when present, else a fresh `get_doc(obj)` — with no explicit
override. -/
def show_doc (fs : FS) (root : Option FPath) (o : DObj) :
    Except DocNotFoundErr String :=
  match o.docioFull with
  | some full => .ok full
  | none => get_doc fs root o none

/-! ## The AST scanner (`scan_file_for_docio`) -/

/-- The value of a keyword argument in a decorator call: a literal string
constant (`ast.Constant` — string literals are the only constants the
decorator contract uses), or any other expression. -/
inductive KwValue where
  | const : String → KwValue
  | nonConst : KwValue
deriving Repr, DecidableEq

/-- A keyword argument of a decorator call: its name (`none` models a
`**kwargs` splat) and its value. -/
structure Kw where
  arg : Option String
  value : KwValue
deriving Repr, DecidableEq

/-- A decorator expression: a bare name (`ast.Name`), a call whose callee
is rendered as its name when it is an `ast.Name` (`none` otherwise, e.g.
an attribute access), or any other expression. -/
inductive Deco where
  | nameRef : String → Deco
  | call : Option String → List Kw → Deco
  | otherDeco : Deco
deriving Repr, DecidableEq

/-- A Python AST node, restricted to what the scanner inspects: the three
definition node kinds (name, decorator list, 1-based line number, body)
and every other node kind collapsed to its child list.  A node's
children are the sub-statements that can hold definitions; decorator
expressions cannot. -/
inductive PyAst where
  | classDef : String → List Deco → Nat → List PyAst → PyAst
  | funcDef : String → List Deco → Nat → List PyAst → PyAst
  | asyncFuncDef : String → List Deco → Nat → List PyAst → PyAst
  | otherNode : List PyAst → PyAst
deriving Repr

/-- Child AST nodes, in source order (`ast.iter_child_nodes`). -/
def PyAst.children : PyAst → List PyAst
  | .classDef _ _ _ b => b
  | .funcDef _ _ _ b => b
  | .asyncFuncDef _ _ _ b => b
  | .otherNode b => b

/-- Whether the node is one of `ClassDef`, `FunctionDef`,
`AsyncFunctionDef`. -/
def PyAst.isDefNode : PyAst → Bool
  | .classDef _ _ _ _ => true
  | .funcDef _ _ _ _ => true
  | .asyncFuncDef _ _ _ _ => true
  | .otherNode _ => false

/-- Whether the node is a `ClassDef`. -/
def PyAst.isClassDef : PyAst → Bool
  | .classDef _ _ _ _ => true
  | _ => false

/-- The `name` field of a definition node (`""` on other nodes, which the
scanner never reads). -/
def PyAst.nodeName : PyAst → String
  | .classDef n _ _ _ => n
  | .funcDef n _ _ _ => n
  | .asyncFuncDef n _ _ _ => n
  | .otherNode _ => ""

/-- The `decorator_list` of a definition node. -/
def PyAst.decorators : PyAst → List Deco
  | .classDef _ d _ _ => d
  | .funcDef _ d _ _ => d
  | .asyncFuncDef _ d _ _ => d
  | .otherNode _ => []

/-- The 1-based `lineno` of a definition node. -/
def PyAst.lineno : PyAst → Nat
  | .classDef _ _ l _ => l
  | .funcDef _ _ l _ => l
  | .asyncFuncDef _ _ l _ => l
  | .otherNode _ => 0

mutual

/-- Number of nodes in a tree (for termination measures). -/
def astSize : PyAst → Nat
  | .classDef _ _ _ b => 1 + astSizeList b
  | .funcDef _ _ _ b => 1 + astSizeList b
  | .asyncFuncDef _ _ _ b => 1 + astSizeList b
  | .otherNode b => 1 + astSizeList b

/-- Number of nodes in a forest. -/
def astSizeList : List PyAst → Nat
  | [] => 0
  | a :: rest => astSize a + astSizeList rest

end

def astSizeList_append (l₁ l₂ : List PyAst) :
    astSizeList (l₁ ++ l₂) = astSizeList l₁ + astSizeList l₂ := by
  induction l₁ with
  | nil => simp [astSizeList]
  | cons a rest ih => simp [astSizeList, ih]; omega

def astSizeList_children_lt (n : PyAst) :
    astSizeList n.children < astSize n := by
  cases n <;> simp [PyAst.children, astSize]

def astSizeList_queue_lt (n : PyAst) (rest : List PyAst) :
    astSizeList (rest ++ n.children) < astSizeList (n :: rest) := by
  have h := astSizeList_children_lt n
  simp [astSizeList, astSizeList_append]
  omega

/-- Model of `ast.walk`: breadth-first traversal by a FIFO queue, the
queue seeded with the given nodes. -/
def bfsWalk : List PyAst → List PyAst
  | [] => []
  | n :: rest => n :: bfsWalk (rest ++ n.children)
termination_by queue => astSizeList queue
decreasing_by exact astSizeList_queue_lt _ _

/-- The keyword loop of `has_docio_decorator`: the first keyword named
`filename` with a literal constant value yields the override. -/
def findFilenameKw : List Kw → Option String
  | [] => none
  | k :: rest =>
      if k.arg = some "filename" then
        match k.value with
        | .const v => some v
        | .nonConst => findFilenameKw rest
      else findFilenameKw rest

/-- Model of `has_docio_decorator(node)` applied to a decorator list:
`some ov` when the node carries the marker (`ov` the extracted override,
`none` when absent), `none` when it does not.  A bare `@docio` name
matches with no override; a call `@docio(...)` matches and consults its
keywords; anything else is skipped. -/
def hasDocioDecorator : List Deco → Option (Option String)
  | [] => none
  | .nameRef i :: rest =>
      if i = "docio" then some none else hasDocioDecorator rest
  | .call f kws :: rest =>
      if f = some "docio" then some (findFilenameKw kws)
      else hasDocioDecorator rest
  | .otherDeco :: rest => hasDocioDecorator rest

/-- Model of `determine_object_type(node, parent)` (closing over the two
file-classification flags): `__init__` files first, then test files,
then class definitions, then functions whose immediate parent is a class
definition, then plain functions. -/
def determine_object_type (isInitFile isTestFile : Bool)
    (node : PyAst) (parent : PyAst) : String :=
  if isInitFile then "__init__"
  else if isTestFile then "test"
  else if node.isClassDef then "class"
  else if parent.isClassDef then "method"
  else "function"

/-- One scanner result record:
`(node.name, filename_override, node.lineno, object_type)`. -/
structure ScanRecord where
  recName : String
  override : Option String
  lineno : Nat
  objType : String
deriving Repr, DecidableEq

/-- The records contributed while visiting one parent node: its decorated
definition children, in source order. -/
def recordsOfParent (isInitFile isTestFile : Bool) (parent : PyAst) :
    List ScanRecord :=
  parent.children.filterMap (fun node =>
    if node.isDefNode then
      match hasDocioDecorator node.decorators with
      | some ov =>
          some ⟨node.nodeName, ov, node.lineno,
            determine_object_type isInitFile isTestFile node parent⟩
      | none => none
    else none)

/-- The scanner core on a parsed tree: for every node of `ast.walk(tree)`
(breadth-first), append the records of its decorated definition
children. -/
def scanTree (isInitFile isTestFile : Bool) (tree : PyAst) :
    List ScanRecord :=
  (bfsWalk [tree]).flatMap (recordsOfParent isInitFile isTestFile)

/-- Python `pat in s` for a non-empty pattern, via `pySplit`. -/
def containsSub (s pat : String) : Bool :=
  (pySplit s pat).length > 1

/-- The test-file classification of `scan_file_for_docio`:
`'test' in file_path.stem.lower() or 'tests' in file_path.parts`. -/
def isTestFileOf (filePath : FPath) : Bool :=
  containsSub (pyLower (pathStem (filePath.getLastD ""))) "test" ∨
    filePath.contains "tests"

/-- The `__init__.py` classification of `scan_file_for_docio`. -/
def isInitFileOf (filePath : FPath) : Bool :=
  filePath.getLastD "" = "__init__.py"

/-- Model of `scan_file_for_docio(file_path)`.  Reading and parsing the
file is modelled by the `parsed` argument: `none` when the file does not
exist, cannot be read or fails to parse (the scanner then returns the
empty list), `some tree` for its syntax tree otherwise. -/
def scan_file_for_docio (filePath : FPath) (parsed : Option PyAst) :
    List ScanRecord :=
  match parsed with
  | none => []
  | some tree =>
      scanTree (isInitFileOf filePath) (isTestFileOf filePath) tree

/-! ## Include/exclude filter and stub generation -/

/-- Shell-glob matching of `fnmatch.fnmatch`, on character lists: `*`
matches any run of characters (slashes included), `?` any single
character, anything else itself.  Bracket character classes are not
modelled; no pattern in the repository or its tests uses them.
Recursion is structural on a fuel bounded below by the sum of the two
lengths; the zero-fuel case is unreachable from `globMatchChars`. -/
def globMatchFuel : Nat → List Char → List Char → Bool
  | _, [], [] => true
  | _, [], _ :: _ => false
  | 0, _ :: _, _ => false
  | fuel + 1, '*' :: ps, [] => globMatchFuel fuel ps []
  | fuel + 1, '*' :: ps, c :: cs =>
      globMatchFuel fuel ps (c :: cs) || globMatchFuel fuel ('*' :: ps) cs
  | _, '?' :: _, [] => false
  | fuel + 1, '?' :: ps, _ :: cs => globMatchFuel fuel ps cs
  | _, _ :: _, [] => false
  | fuel + 1, p :: ps, c :: cs => p = c && globMatchFuel fuel ps cs

/-- Glob matching with sufficient fuel. -/
def globMatchChars (pat s : List Char) : Bool :=
  globMatchFuel (pat.length + s.length) pat s

/-- Model of `fnmatch(s, pattern)`. -/
def fnmatchModel (s pattern : String) : Bool :=
  globMatchChars pattern.data s.data

/-- Python truthiness of an `Optional[List[str]]`: `None` and `[]` are
falsy. -/
def truthyList : Option (List String) → Bool
  | none => false
  | some l => ¬ l.isEmpty

/-- The root-relative, forward-slash path string the filter matches
patterns against: `str(file_path.relative_to(root))` when the root is a
path prefix, the file's own path rendered as a string otherwise (the
`ValueError` fallback). -/
def relPathStr (filePath root : FPath) : String :=
  if root.isPrefixOf filePath then
    pyJoin "/" (filePath.drop root.length)
  else pyJoin "/" filePath

/-- Model of `_should_process_file(file_path, root, include_patterns,
exclude_patterns)`, parametric in the glob matcher `m` (instantiated
with `fnmatchModel` for concrete runs): exclude patterns are checked
first and any match rejects; then, when include patterns are given, at
least one must match; otherwise the file is accepted. -/
def _should_process_file (m : String → String → Bool)
    (filePath root : FPath)
    (includePatterns excludePatterns : Option (List String)) : Bool :=
  let rel := relPathStr filePath root
  if (excludePatterns.getD []).any (fun p => m rel p) then false
  else if truthyList includePatterns then
    (includePatterns.getD []).any (fun p => m rel p)
  else true

/-- The `(base_dir, module_path)` derivation of `auto_generate_stubs`
(lines 476–497 of `core.py`): same area convention as `_find_doc_file`,
but every fallback uses the file's stem as the module path.  A file
participating in stub generation exists and lies strictly below the
root whenever the root is a prefix of its path. -/
def deriveStubLocation (filePath root : FPath) : Option String × String :=
  if root.isPrefixOf filePath then
    match filePath.drop root.length with
    | p0 :: restParts =>
        if p0 = "src" ∨ p0 = "tests" ∨ p0 = "examples" then
          (some p0, modulePathOfParts restParts)
        else (none, pathStem (filePath.getLastD ""))
    | [] => (none, pathStem (filePath.getLastD ""))
  else (none, pathStem (filePath.getLastD ""))

/-- The file system after a stub file has been written (stub generation
checks later targets against it within one run). -/
def FS.withFile (fs : FS) (p : FPath) (content : String) : FS where
  pathExists := fun q => decide (q = p) || fs.pathExists q
  readFile := fun q => if q = p then some content else fs.readFile q

/-- The type of the excluded string-formatting collaborator: template
content, entity name (also used for the method-name alias), structural
kind, dotted module path and root-relative source path give the rendered
stub. -/
abbrev RenderFn := String → String → String → String → String → String

/-- The minimal inline template used when no template file exists
(lines 525–532 of `core.py`). -/
def minimalStubTemplate : String :=
  "---\nsource_file: {source_file}\ntype: {obj_type}\nobject_name: {name}\n---\n\n# {name}\n"

/-- The per-record loop of `auto_generate_stubs`: select a template
(kind-specific, else `function.md`, else the minimal inline one),
compute the target path (explicit override under `docs/`, else the
convention directory), skip existing targets, render, and — unless in
dry-run mode — write the file (later iterations see the write).  A
failing template read propagates as an error.  Returns the result list
and the writes performed. -/
def processStubItems (fs : FS) (render : RenderFn)
    (templateDir docsBase docsDir : FPath)
    (modulePath sourceFileRel : String) (dryRun : Bool) :
    List ScanRecord → Except String (List FPath × List (FPath × String))
  | [] => .ok ([], [])
  | item :: rest =>
      let templateFile0 := templateDir ++ [item.objType ++ ".md"]
      let templateFile :=
        if fs.pathExists templateFile0 then templateFile0
        else templateDir ++ ["function.md"]
      let templateContentE : Except String String :=
        if fs.pathExists templateFile then
          match fs.readFile templateFile with
          | some c => .ok c
          | none => .error "template read failure"
        else .ok minimalStubTemplate
      match templateContentE with
      | .error e => .error e
      | .ok templateContent =>
          let target :=
            match item.override with
            | some ov =>
                if ov = "" then docsDir ++ [item.recName ++ ".md"]
                else joinStr docsBase ov
            | none => docsDir ++ [item.recName ++ ".md"]
          if fs.pathExists target then
            processStubItems fs render templateDir docsBase docsDir
              modulePath sourceFileRel dryRun rest
          else
            let content := render templateContent item.recName item.objType
              (pyReplace modulePath "/" ".") sourceFileRel
            if dryRun then
              match processStubItems fs render templateDir docsBase docsDir
                  modulePath sourceFileRel dryRun rest with
              | .ok (cs, ws) => .ok (target :: cs, ws)
              | .error e => .error e
            else
              match processStubItems (fs.withFile target content) render
                  templateDir docsBase docsDir modulePath sourceFileRel
                  dryRun rest with
              | .ok (cs, ws) => .ok (target :: cs, (target, content) :: ws)
              | .error e => .error e

/-- Model of `auto_generate_stubs(file_path, template_dir,
exclude_patterns, include_patterns, dry_run)`.  `pkgRoot` is
`_get_package_root()`, `builtinTemplDir` the built-in `stubs/`
directory, `parsed` the file's syntax tree as in `scan_file_for_docio`,
`m` the glob matcher and `render` the formatting collaborator.  Returns
the list of created (or would-be-created) stub paths together with the
writes performed, or an error for a missing template directory. -/
def auto_generate_stubs (fs : FS) (pkgRoot : Option FPath)
    (render : RenderFn) (builtinTemplDir : FPath)
    (m : String → String → Bool)
    (filePath : FPath) (parsed : Option PyAst)
    (templateDir : Option FPath)
    (excludePatterns includePatterns : Option (List String))
    (dryRun : Bool) :
    Except String (List FPath × List (FPath × String)) :=
  if ¬ fs.pathExists filePath then .ok ([], [])
  else
    let root := pkgRoot.getD filePath.dropLast
    if ¬ _should_process_file m filePath root includePatterns excludePatterns
    then .ok ([], [])
    else
      let tDir := templateDir.getD builtinTemplDir
      if ¬ fs.pathExists tDir then
        .error ("Template directory not found: " ++
          pyJoin "/" tDir)
      else
        let loc := deriveStubLocation filePath root
        let baseDir := loc.1
        let modulePath := loc.2
        let decoratedItems := scan_file_for_docio filePath parsed
        if decoratedItems.isEmpty then .ok ([], [])
        else
          let docsBase := root ++ ["docs"]
          let docsDir :=
            match baseDir with
            | some b =>
                if modulePath ≠ "" then joinStr (docsBase ++ [b]) modulePath
                else docsBase ++ [b]
            | none =>
                if modulePath ≠ "" then joinStr docsBase modulePath
                else docsBase
          let sourceFileRel := relPathStr filePath root
          processStubItems fs render tDir docsBase docsDir modulePath
            sourceFileRel dryRun decoratedItems

/-! ## Document-order reference scan (for comparison with the BFS scan) -/

def astSize_pos (n : PyAst) : 1 ≤ astSize n := by
  cases n <;> simp [astSize]

def docScan_dec0 (p : PyAst) :
    2 * astSizeList p.children + 1 < 2 * astSize p := by
  have h := astSizeList_children_lt p
  omega

def docScan_dec1 (c : PyAst) (cs : List PyAst) :
    2 * astSize c < 2 * astSizeList (c :: cs) + 1 := by
  simp [astSizeList]
  omega

def docScan_dec2 (c : PyAst) (cs : List PyAst) :
    2 * astSizeList cs + 1 < 2 * astSizeList (c :: cs) + 1 := by
  have h := astSize_pos c
  simp [astSizeList]
  omega

/-- The record a single node contributes (relative to its parent):
a singleton when it is a decorated definition, empty otherwise. -/
def optRecord (isInitFile isTestFile : Bool) (parent node : PyAst) :
    List ScanRecord :=
  if node.isDefNode then
    match hasDocioDecorator node.decorators with
    | some ov =>
        [⟨node.nodeName, ov, node.lineno,
          determine_object_type isInitFile isTestFile node parent⟩]
    | none => []
  else []

mutual

/-- Reference scan in document order (pre-order, depth-first): the
records of all decorated definitions strictly below `parent`, sorted by
source position when line numbers reflect it. -/
def docScan (isInitFile isTestFile : Bool) (parent : PyAst) :
    List ScanRecord :=
  docScanList isInitFile isTestFile parent parent.children
termination_by 2 * astSize parent
decreasing_by exact docScan_dec0 _

/-- Document-order scan of a suffix of a parent's children. -/
def docScanList (isInitFile isTestFile : Bool) (parent : PyAst) :
    List PyAst → List ScanRecord
  | [] => []
  | c :: cs =>
      optRecord isInitFile isTestFile parent c ++
        docScan isInitFile isTestFile c ++
        docScanList isInitFile isTestFile parent cs
termination_by l => 2 * astSizeList l + 1
decreasing_by
  · exact docScan_dec1 _ _
  · exact docScan_dec2 _ _

end

/-! ## Specification-side definitions and concrete witness data -/

/-- The docs base directory the candidate probing happens under:
`root/docs/<area>` when an area was derived, `root/docs` otherwise. -/
def searchBaseOf (r : FPath) : Option String → FPath
  | some b => (r ++ ["docs"]) ++ [b]
  | none => r ++ ["docs"]

/-- The ordered candidate list the specification describes for
convention-based resolution: the two module-path-qualified names (full
dotted qualname, then final segment) followed by the two flat names —
at most four candidates. -/
def claimCandidates (r : FPath) (baseDir : Option String)
    (modulePath qn : String) : List FPath :=
  let searchBase := searchBaseOf r baseDir
  (if modulePath ≠ "" then
    [joinStr searchBase modulePath ++ [qn ++ ".md"],
     joinStr searchBase modulePath ++ [lastDotSegment qn ++ ".md"]]
   else []) ++
  [searchBase ++ [qn ++ ".md"],
   searchBase ++ [lastDotSegment qn ++ ".md"]]

/-- First list suffix after a line equal to `"---"`, if any. -/
def linesAfterDashLine : List String → Option (List String)
  | [] => none
  | l :: rest => if l = "---" then some rest else linesAfterDashLine rest

/-- Modelled from the spec: frontmatter stripping as the specification
words it — a metadata block "delimited by a line of exactly three
hyphens" occurring at the start "and again later"; the text after the
second such line, stripped, is the body.  (The code instead triggers on
the substring `"---"`; this definition exists to compare the two.) -/
def specC5Strip (s : String) : String :=
  match pySplit s "\n" with
  | first :: rest =>
      if first = "---" then
        match linesAfterDashLine rest with
        | some after => pyStrip (pyJoin "\n" after)
        | none => s
      else s
  | [] => s

/-- Modelled from the spec: the short-summary derivation with the
spec-worded (line-based) frontmatter stripping in place of the code's
substring-based one; the paragraph pipeline is shared with
`derivedSummary`. -/
def specC5Summary (s : String) : String :=
  let body := specC5Strip s
  let paragraphs := paragraphsOf body
  let fp := firstNonHeading paragraphs
  let fp2 :=
    if fp = "" then
      match paragraphs with
      | [] => fp
      | p :: _ => collapsePara p
    else fp
  truncate200 fp2

/-- A finite file system: a list of paths that exist without readable
content, and a list of readable files with their content. -/
def listFS (existing : List FPath) (files : List (FPath × String)) : FS where
  pathExists := fun p => existing.contains p || (files.map Prod.fst).contains p
  readFile := fun p => (files.find? (fun q => q.1 = p)).map Prod.snd

/-- The empty file system. -/
def emptyFS : FS := listFS [] []

/-- Witness entity: a method `Outer.method` defined in
`src/pkg/mod.py`. -/
def wObj : DObj where
  hasModule := true
  moduleName := "pkg.mod"
  qualname := some "Outer.method"
  name := "method"
  hasFile := true
  sourceRel := some ("src", ["pkg", "mod.py"])
  doc := none
  docioFull := none

/-- Witness file system: the `docs/src` area exists and holds
`docs/src/pkg/mod/method.md`. -/
def wfs : FS :=
  listFS [["root", "docs", "src"]]
    [(["root", "docs", "src", "pkg", "mod", "method.md"], "DocContent")]

/-- Counterexample entity for the idempotence claim: no documentation
file resolves (its module cannot be located relative to any root), and
its inline docstring is a heading followed by a paragraph that itself
starts with `---`. -/
def cxObj4 : DObj where
  hasModule := true
  moduleName := "m"
  qualname := some "q"
  name := "q"
  hasFile := true
  sourceRel := none
  doc := some "# H\n\n--- a --- b"
  docioFull := none

/-- Counterexample input for the summary-derivation claim: starts with
the substring `---` although no line consists of exactly three
hyphens. -/
def cex5 : String := "-----\nbody\n-----\nend"

/-- The metadata-stripping example content named by the claim. -/
def exampleC5 : String := "---\na: b\n---\n\nBody text."

/-- Entity whose docstring is metadata only, so the derived summary
comes out empty. -/
def oC6 : DObj where
  hasModule := true
  moduleName := "m6"
  qualname := some "q6"
  name := "q6"
  hasFile := true
  sourceRel := none
  doc := some "---\nx\n---"
  docioFull := none

/-- Counterexample tree for the scanner-order claim: a module holding a
class `A` (line 1) with a decorated method `m` (line 3), followed by a
decorated function `f` (line 6). -/
def exTreeC7 : PyAst :=
  .otherNode [
    .classDef "A" [] 1 [.funcDef "m" [.nameRef "docio"] 3 []],
    .funcDef "f" [.nameRef "docio"] 6 []]

/-- Example tree for kind assignment: a bare-marked class. -/
def exTreeTest : PyAst :=
  .otherNode [.classDef "Foo" [.nameRef "docio"] 1 []]

/-- Example tree for kind assignment: a marked class holding a marked
function. -/
def exTreeMethod : PyAst :=
  .otherNode [.classDef "C" [.nameRef "docio"] 1
    [.funcDef "g" [.nameRef "docio"] 2 []]]

/-- File system for the filter-precedence example: only the scanned
source file exists. -/
def fs9 : FS := listFS [["root", "src", "migrations", "x.py"]] []

/-- A renderer for examples: returns the template unchanged. -/
def idRender : RenderFn := fun t _ _ _ _ => t

/-- Entity for the `show_doc` claim: a function `thing` in
`src/pkg/mod.py` with no inline docstring. -/
def o10 : DObj where
  hasModule := true
  moduleName := "pkg.mod"
  qualname := some "thing"
  name := "thing"
  hasFile := true
  sourceRel := some ("src", ["pkg", "mod.py"])
  doc := none
  docioFull := none

/-- Later file system for the `show_doc` claim: the explicit-override
target now exists, no convention-based path does. -/
def fs10b : FS := listFS [] [(["root", "docs", "custom.md"], "OVERRIDE CONTENT")]

/-! ## Claim theorems -/

set_option maxRecDepth 100000

/-- C1: documentation-path resolution probes exactly the claimed ordered
candidate list and returns the first existing path (or `none`), never
failing: with a (truthy) explicit override, the single path
`root/docs/<override>`; otherwise the two module-path-qualified
candidates (full dotted qualname, then final segment) followed by the
two flat candidates, with the docs base directory's existence checked
before any candidate. -/
theorem findDocFile_probes_claimed_candidates
    (fs : FS) (r : FPath) (o : DObj) (qn f : String)
    (hm : o.hasModule = true) (hq : o.qualname = some qn) (hqn : qn ≠ "")
    (hf : f ≠ "")
    (hmain : ¬ (o.moduleName = "__main__" ∧ ¬ o.hasFile)) :
    findDocFile fs (some r) o (some f) =
      (if fs.pathExists (joinStr (r ++ ["docs"]) f) = true
        then some (joinStr (r ++ ["docs"]) f) else none) ∧
    findDocFile fs (some r) o none =
      (if fs.pathExists (searchBaseOf r (deriveLocation o).1) = true
        then (claimCandidates r (deriveLocation o).1 (deriveLocation o).2
            qn).find? fs.pathExists
        else none) := by
  constructor
  · simp [findDocFile, findDocFileNamed, hm, hq, hqn, hf]
  · have hmain2 : ¬ (o.moduleName = "__main__" ∧ o.hasFile = false) := by
      simpa using hmain
    rcases hloc : deriveLocation o with ⟨bd, mp⟩
    cases bd <;>
      simp [findDocFile, findDocFileNamed, findDocFileConvention, hm, hq,
        hqn, hmain2, hloc, claimCandidates, searchBaseOf, joinStr,
        ite_not] <;>
      (split <;> simp_all)

theorem findDocFile_probes_claimed_candidates_witness :
    (findDocFile wfs (some ["root"]) wObj (some "x.md") =
      (if wfs.pathExists (joinStr (["root"] ++ ["docs"]) "x.md") = true
        then some (joinStr (["root"] ++ ["docs"]) "x.md") else none)) ∧
    (findDocFile wfs (some ["root"]) wObj none =
      (if wfs.pathExists (searchBaseOf ["root"] (deriveLocation wObj).1) = true
        then (claimCandidates ["root"] (deriveLocation wObj).1
            (deriveLocation wObj).2 "Outer.method").find? wfs.pathExists
        else none)) :=
  findDocFile_probes_claimed_candidates wfs ["root"] wObj "Outer.method"
    "x.md" rfl rfl (by decide) (by decide) (by decide)

/-- C2: retrieval returns the resolved file's text verbatim; with no
resolved candidate it falls back to the entity's non-empty inline
description; otherwise, and likewise on any failure while reading a
resolved file, it fails with the single `DocNotFoundError` condition —
the same error type in both cases, so callers cannot distinguish a
missing file from an unreadable one. -/
theorem get_doc_spec (fs : FS) (root : Option FPath) (o : DObj)
    (f : Option String) (p : FPath) (c : String) :
    (findDocFile fs root o f = some p → fs.readFile p = some c →
      get_doc fs root o f = .ok c) ∧
    (findDocFile fs root o f = some p → fs.readFile p = none →
      get_doc fs root o f =
        .error ⟨"Failed to read documentation file " ++ pyJoin "/" p⟩) ∧
    (findDocFile fs root o f = none → truthyStr o.doc = true →
      get_doc fs root o f = .ok (o.doc.getD "")) ∧
    (findDocFile fs root o f = none → truthyStr o.doc = false →
      get_doc fs root o f =
        .error ⟨"No documentation file found for " ++ o.qualnameOrName⟩) := by
  refine ⟨?_, ?_, ?_, ?_⟩
  · intro h1 h2
    simp [get_doc, h1, h2]
  · intro h1 h2
    simp [get_doc, h1, h2]
  · intro h1 h2
    cases hd : o.doc with
    | none => simp [truthyStr, hd] at h2
    | some d =>
        rw [hd] at h2
        simp only [truthyStr] at h2
        simp [get_doc, h1, hd, of_decide_eq_true h2]
  · intro h1 h2
    cases hd : o.doc with
    | none => simp [get_doc, h1, hd]
    | some d =>
        rw [hd] at h2
        simp only [truthyStr] at h2
        simp at h2
        simp [get_doc, h1, hd, h2]

theorem get_doc_spec_witness :
    (findDocFile wfs (some ["root"]) wObj none =
        some ["root", "docs", "src", "pkg", "mod", "method.md"]) ∧
    (wfs.readFile ["root", "docs", "src", "pkg", "mod", "method.md"] =
        some "DocContent") ∧
    get_doc wfs (some ["root"]) wObj none = .ok "DocContent" := by
  refine ⟨by decide, by decide, ?_⟩
  exact (get_doc_spec wfs (some ["root"]) wObj none
    ["root", "docs", "src", "pkg", "mod", "method.md"] "DocContent").1
    (by decide) (by decide)

/-- C3: annotation always returns the entity (all identity attributes
unchanged, only the description slots are touched) and never propagates
a documentation failure; on `DocNotFoundError` a non-empty inline
description is left unchanged, and an empty one is replaced by a
"Documentation pending" placeholder that names the entity's qualified
name. -/
theorem docio_annotation_spec (fs : FS) (root : Option FPath)
    (reg : Registry) (o : DObj) (f : Option String) (e : DocNotFoundErr)
    (qn : String) :
    ((docioDecorate fs root reg o f).1.hasModule = o.hasModule ∧
     (docioDecorate fs root reg o f).1.moduleName = o.moduleName ∧
     (docioDecorate fs root reg o f).1.qualname = o.qualname ∧
     (docioDecorate fs root reg o f).1.name = o.name ∧
     (docioDecorate fs root reg o f).1.hasFile = o.hasFile ∧
     (docioDecorate fs root reg o f).1.sourceRel = o.sourceRel) ∧
    (get_doc fs root o f = .error e → truthyStr o.doc = true →
      (docioDecorate fs root reg o f).1 = o) ∧
    (get_doc fs root o f = .error e → truthyStr o.doc = false →
      o.qualname = some qn →
      (docioDecorate fs root reg o f).1.doc =
        some ("Documentation pending for " ++ qn)) := by
  refine ⟨?_, ?_, ?_⟩
  · cases hg : get_doc fs root o f <;> simp [docioDecorate, hg]
    split <;> simp
  · intro hg ht
    simp [docioDecorate, hg, ht]
  · intro hg ht hq
    simp [docioDecorate, hg, ht, DObj.qualnameOrName, hq]

theorem docio_annotation_spec_witness :
    (get_doc emptyFS none o10 none =
      .error ⟨"No documentation file found for thing"⟩) ∧
    truthyStr o10.doc = false ∧
    (docioDecorate emptyFS none [] o10 none).1.doc =
      some ("Documentation pending for " ++ "thing") :=
  ⟨by rfl, by decide,
    (docio_annotation_spec emptyFS none [] o10 none
      ⟨"No documentation file found for thing"⟩ "thing").2.2
      (by rfl) (by decide) rfl⟩

theorem findDocFile_ignores_desc (fs : FS) (root : Option FPath)
    (f : Option String) (o : DObj) (d dd : Option String) :
    findDocFile fs root { o with doc := d, docioFull := dd } f =
      findDocFile fs root o f := rfl

/-- C4 counterexample: annotating the same entity twice with the same
override does not always derive the same short summary.  For `cxObj4`
(no resolvable file, docstring `"# H\n\n--- a --- b"`) the first
annotation derives `"--- a --- b"`; the second annotation retrieves
that summary back through the docstring fallback and re-derives `"b"`
from it, because the summary itself starts with `---`. -/
theorem docio_idempotence_counterexample :
    (docioDecorate emptyFS none [] cxObj4 none).1.doc =
      some "--- a --- b" ∧
    (docioDecorate emptyFS none
        ((docioDecorate emptyFS none [] cxObj4 none).2)
        ((docioDecorate emptyFS none [] cxObj4 none).1) none).1.doc =
      some "b" ∧
    ¬ (some "--- a --- b" = (some "b" : Option String)) :=
  ⟨by rfl, by rfl, by decide⟩

/-- C4 (amended): every annotation call appends exactly one
`(entity, override)` entry to the registry, whatever the outcome; and
annotating the same entity twice with the same override yields the same
derived short summary both times whenever a documentation file resolves
and is readable (resolution ignores the description slots, so both
calls read the same file; without a resolved file the second call may
re-derive from the first summary via the docstring fallback and
differ). -/
theorem docio_registry_append_and_file_idempotence
    (fs : FS) (root : Option FPath) (reg reg2 : Registry) (o : DObj)
    (f : Option String) (p : FPath) (c : String) :
    ((docioDecorate fs root reg o f).2 = reg ++ [(o, f)]) ∧
    (findDocFile fs root o f = some p → fs.readFile p = some c →
      (docioDecorate fs root reg2
          ((docioDecorate fs root reg o f).1) f).1.doc =
        (docioDecorate fs root reg o f).1.doc) := by
  constructor
  · cases hg : get_doc fs root o f <;> simp [docioDecorate, hg]
    split <;> simp
  · intro h1 h2
    have hget : get_doc fs root o f = .ok c := by simp [get_doc, h1, h2]
    have ho1 : (docioDecorate fs root reg o f).1 =
        { o with docioFull := some c, doc := some (summaryDoc o c) } := by
      simp [docioDecorate, hget]
    rw [ho1]
    have hget2 : get_doc fs root
        { o with docioFull := some c, doc := some (summaryDoc o c) } f =
        .ok c := by
      simp [get_doc, findDocFile_ignores_desc, h1, h2]
    simp only [docioDecorate, hget2]
    simp [summaryDoc, DObj.qualnameOrName]

theorem docio_registry_append_and_file_idempotence_witness :
    (docioDecorate wfs (some ["root"]) [] wObj none).2 = [(wObj, none)] ∧
    (docioDecorate wfs (some ["root"]) []
        ((docioDecorate wfs (some ["root"]) [] wObj none).1) none).1.doc =
      (docioDecorate wfs (some ["root"]) [] wObj none).1.doc := by
  have h := docio_registry_append_and_file_idempotence wfs (some ["root"])
    [] [] wObj none ["root", "docs", "src", "pkg", "mod", "method.md"]
    "DocContent"
  exact ⟨by simpa using h.1, h.2 (by rfl) (by rfl)⟩

/-- C5 counterexample: the stripping trigger of the code is the
substring `---`, not "a line of exactly three hyphens".  In `cex5` no
line consists of exactly three hyphens, so the derivation the claim
describes keeps the content whole and yields
`"----- body ----- end"`, while the code strips through the second
substring occurrence and yields `"-- end"`. -/
theorem summary_frontmatter_wording_counterexample :
    derivedSummary cex5 = "-- end" ∧
    specC5Summary cex5 = "----- body ----- end" ∧
    ¬ (("-- end" : String) = "----- body ----- end") :=
  ⟨by rfl, by rfl, by decide⟩

/-- C5 (amended): the derivation strips a leading metadata block
whenever the content starts with the substring `---` and that substring
occurs at least twice — the first two `---`-delimited segments are
dropped and the remainder (re-joined on `---`, stripped) is the body;
with no leading `---`, or fewer than two occurrences, nothing is
stripped.  The body splits into blank-line-separated blocks and the
summary is the first block whose first character is not `#`, internal
line breaks collapsed to spaces; on the claim's example the summary is
exactly `"Body text."` with no metadata markers remaining. -/
theorem derivedSummary_spec (s : String) (ps : List String) :
    (pyStartsWith s "---" = false → stripFrontmatter s = s) ∧
    (pyStartsWith s "---" = true → 3 ≤ (pySplit s "---").length →
      stripFrontmatter s =
        pyStrip (pyJoin "---" ((pySplit s "---").drop 2))) ∧
    (pyStartsWith s "---" = true → (pySplit s "---").length < 3 →
      stripFrontmatter s = s) ∧
    (firstNonHeading ps =
      ((ps.find? (fun p => ! pyStartsWith p "#")).map collapsePara).getD
        "") ∧
    (derivedSummary exampleC5 = "Body text." ∧
      containsSub "Body text." "---" = false) := by
  refine ⟨?_, ?_, ?_, ?_, by rfl, by rfl⟩
  · intro h
    simp [stripFrontmatter, h]
  · intro h1 h2
    rcases hp : pySplit s "---" with _ | ⟨p0, _ | ⟨p1, _ | ⟨p2, rest⟩⟩⟩ <;>
      rw [hp] at h2 <;> simp at h2
    cases rest with
    | nil => simp [stripFrontmatter, h1, pySplit2, hp, pyJoin,
        List.intercalate, List.intersperse]
    | cons q qs => simp [stripFrontmatter, h1, pySplit2, hp]
  · intro h1 h2
    rcases hp : pySplit s "---" with _ | ⟨p0, _ | ⟨p1, _ | ⟨p2, rest⟩⟩⟩ <;>
      rw [hp] at h2
    · simp [stripFrontmatter, h1, pySplit2, hp]
    · simp [stripFrontmatter, h1, pySplit2, hp]
    · simp [stripFrontmatter, h1, pySplit2, hp]
    · simp at h2
      omega
  · induction ps with
    | nil => simp [firstNonHeading]
    | cons p rest ih =>
        cases hph : pyStartsWith p "#" <;>
          simp [firstNonHeading, List.find?, hph, ih]

theorem derivedSummary_spec_witness :
    pyStartsWith exampleC5 "---" = true ∧
    3 ≤ (pySplit exampleC5 "---").length ∧
    stripFrontmatter exampleC5 =
      pyStrip (pyJoin "---" ((pySplit exampleC5 "---").drop 2)) :=
  ⟨by decide, by decide,
    (derivedSummary_spec exampleC5 []).2.1 (by decide) (by decide)⟩

/-- C6: the derived summary is truncated to 200 characters with an
ellipsis marker appended exactly when the pre-truncation summary
exceeds 200 characters; a single-paragraph body of 250 identical
characters derives a summary of length at most 203 ending with the
ellipsis marker; a summary that ends up empty is replaced in `__doc__`
by a placeholder naming the entity. -/
theorem derivedSummary_truncation_spec (s content : String) (fs : FS)
    (root : Option FPath) (reg : Registry) (o : DObj)
    (f : Option String) :
    (s.length > 200 → truncate200 s = pyTake s 197 ++ "...") ∧
    (s.length ≤ 200 → truncate200 s = s) ∧
    (derivedSummary (String.mk (List.replicate 250 'a')) =
        String.mk (List.replicate 197 'a') ++ "..." ∧
      (derivedSummary (String.mk (List.replicate 250 'a'))).length ≤ 203 ∧
      pyEndsWith (derivedSummary (String.mk (List.replicate 250 'a')))
        "..." = true) ∧
    (get_doc fs root o f = .ok content → derivedSummary content = "" →
      (docioDecorate fs root reg o f).1.doc =
        some ("See documentation for " ++ o.qualnameOrName)) := by
  refine ⟨?_, ?_, ⟨by rfl, by decide, by rfl⟩, ?_⟩
  · intro h
    simp [truncate200, h]
  · intro h
    simp only [truncate200]
    rw [if_neg (by omega)]
  · intro hg hsum
    simp [docioDecorate, hg, summaryDoc, hsum]

theorem derivedSummary_truncation_spec_witness :
    ((String.mk (List.replicate 250 'a')).length > 200 ∧
      truncate200 (String.mk (List.replicate 250 'a')) =
        pyTake (String.mk (List.replicate 250 'a')) 197 ++ "...") ∧
    (("short" : String).length ≤ 200 ∧ truncate200 "short" = "short") ∧
    (get_doc emptyFS none oC6 none = .ok "---\nx\n---" ∧
      derivedSummary "---\nx\n---" = "" ∧
      (docioDecorate emptyFS none [] oC6 none).1.doc =
        some ("See documentation for " ++ "q6")) :=
  ⟨⟨by decide,
    (derivedSummary_truncation_spec (String.mk (List.replicate 250 'a'))
      "" emptyFS none [] oC6 none).1 (by decide)⟩,
    ⟨by decide,
      (derivedSummary_truncation_spec "short" "" emptyFS none [] oC6
        none).2.1 (by decide)⟩,
    ⟨by rfl, by rfl,
      (derivedSummary_truncation_spec "" "---\nx\n---" emptyFS none []
        oC6 none).2.2.2 (by rfl) (by rfl)⟩⟩

theorem filterRecords_eq_flatMap (ii it : Bool) (p : PyAst)
    (l : List PyAst) :
    (l.filterMap (fun node =>
      if node.isDefNode then
        match hasDocioDecorator node.decorators with
        | some ov =>
            some ⟨node.nodeName, ov, node.lineno,
              determine_object_type ii it node p⟩
        | none => none
      else none)) =
    l.flatMap (fun c => optRecord ii it p c) := by
  induction l with
  | nil => simp
  | cons c cs ih =>
      cases hd : c.isDefNode <;>
        [skip; cases ho : hasDocioDecorator c.decorators] <;>
        simp [List.filterMap_cons, optRecord, hd, ih] <;>
        simp [ho]

theorem recordsOfParent_eq_flatMap (ii it : Bool) (p : PyAst) :
    recordsOfParent ii it p =
      p.children.flatMap (fun c => optRecord ii it p c) := by
  rw [recordsOfParent, filterRecords_eq_flatMap]

theorem docScanList_eq_flatMap (ii it : Bool) (p : PyAst)
    (l : List PyAst) :
    docScanList ii it p l =
      l.flatMap (fun c => optRecord ii it p c ++ docScan ii it c) := by
  induction l with
  | nil => simp [docScanList]
  | cons c cs ih => simp [docScanList, ih]

theorem flatMap_append_perm (l : List α) (f g : α → List β) :
    (l.flatMap f ++ l.flatMap g).Perm
      (l.flatMap (fun x => f x ++ g x)) := by
  induction l with
  | nil => simp
  | cons a l ih =>
      simp only [List.flatMap_cons, List.append_assoc]
      exact ((List.perm_append_comm_assoc _ _ _).append_left _).trans
        ((ih.append_left _).append_left _)

theorem bfsRecords_perm (ii it : Bool) (q : List PyAst) :
    ((bfsWalk q).flatMap (recordsOfParent ii it)).Perm
      (q.flatMap (docScan ii it)) := by
  induction q using bfsWalk.induct with
  | case1 => simp [bfsWalk]
  | case2 n rest ih =>
      rw [bfsWalk]
      simp only [List.flatMap_cons, List.flatMap_append] at *
      have hdoc : docScan ii it n =
          n.children.flatMap
            (fun c => optRecord ii it n c ++ docScan ii it c) := by
        rw [docScan, docScanList_eq_flatMap]
      refine (ih.append_left (recordsOfParent ii it n)).trans ?_
      refine ((List.perm_append_comm).append_left
        (recordsOfParent ii it n)).trans ?_
      rw [recordsOfParent_eq_flatMap, ← List.append_assoc]
      refine ((flatMap_append_perm _ _ _).append_right _).trans ?_
      rw [hdoc]

/-- C7 counterexample: scan records are NOT emitted in ascending source
position.  `exTreeC7` holds a decorated method `m` on line 3 (inside a
class) and a decorated top-level function `f` on line 6; the
breadth-first walk emits `f` before `m`, line numbers `[6, 3]`, while
the document-order scan gives `[3, 6]`. -/
theorem scan_document_order_counterexample :
    (scanTree false false exTreeC7).map ScanRecord.lineno = [6, 3] ∧
    ¬ List.Sorted (· ≤ ·)
        ((scanTree false false exTreeC7).map ScanRecord.lineno) ∧
    (docScan false false exTreeC7).map ScanRecord.lineno = [3, 6] := by
  have h1 : (scanTree false false exTreeC7).map ScanRecord.lineno =
      [6, 3] := by
    simp [scanTree, bfsWalk, recordsOfParent, PyAst.children, exTreeC7]
    decide
  have h2 : (docScan false false exTreeC7).map ScanRecord.lineno =
      [3, 6] := by
    simp [docScan, docScanList, optRecord, PyAst.children, exTreeC7]
    decide
  exact ⟨h1, by rw [h1]; decide, h2⟩

/-- C7 (amended): for every parseable file the scan yields exactly one
record per marker-annotated class/function/async-function definition at
any nesting depth — the records are a permutation of the document-order
(pre-order) records — but they are emitted in breadth-first order over
the syntax tree (for each node, in breadth-first queue order, the
records of its decorated definition children in source order), not in
ascending source position. -/
theorem scanTree_perm_docScan (ii it : Bool) (t : PyAst) :
    (scanTree ii it t).Perm (docScan ii it t) := by
  have h := bfsRecords_perm ii it [t]
  simpa [scanTree] using h

/-- C8: structural kinds are assigned in priority order — module-init
file first (the code's kind string is `"__init__"`), else test file
(`"test"`), else class definition (`"class"`), else definition whose
immediate parent is a class definition (`"method"`), else
`"function"`.  Concretely, a bare-marked class inside
`tests/test_foo.py` is classified `"test"` (the test-file rule outranks
the class rule), and a marked function nested directly inside a class
in a non-test file is classified `"method"`. -/
theorem determine_object_type_priority (ii it : Bool)
    (node parent : PyAst) :
    (ii = true → determine_object_type ii it node parent = "__init__") ∧
    (ii = false → it = true →
      determine_object_type ii it node parent = "test") ∧
    (ii = false → it = false → node.isClassDef = true →
      determine_object_type ii it node parent = "class") ∧
    (ii = false → it = false → node.isClassDef = false →
      parent.isClassDef = true →
      determine_object_type ii it node parent = "method") ∧
    (ii = false → it = false → node.isClassDef = false →
      parent.isClassDef = false →
      determine_object_type ii it node parent = "function") ∧
    (isTestFileOf ["tests", "test_foo.py"] = true ∧
      scan_file_for_docio ["tests", "test_foo.py"] (some exTreeTest) =
        [⟨"Foo", none, 1, "test"⟩]) ∧
    scan_file_for_docio ["src", "pkg", "mod.py"] (some exTreeMethod) =
      [⟨"C", none, 1, "class"⟩, ⟨"g", none, 2, "method"⟩] := by
  refine ⟨?_, ?_, ?_, ?_, ?_, ⟨by decide, ?_⟩, ?_⟩
  · intro h
    simp [determine_object_type, h]
  · intro h1 h2
    simp [determine_object_type, h1, h2]
  · intro h1 h2 h3
    simp [determine_object_type, h1, h2, h3]
  · intro h1 h2 h3 h4
    simp [determine_object_type, h1, h2, h3, h4]
  · intro h1 h2 h3 h4
    simp [determine_object_type, h1, h2, h3, h4]
  · simp [scan_file_for_docio, scanTree, bfsWalk, recordsOfParent,
      PyAst.children, exTreeTest]
    decide
  · simp [scan_file_for_docio, scanTree, bfsWalk, recordsOfParent,
      PyAst.children, exTreeMethod]
    decide

theorem determine_object_type_priority_witness :
    determine_object_type false true (.classDef "Foo" [] 1 [])
      (.otherNode []) = "test" ∧
    determine_object_type false false (.funcDef "g" [] 2 [])
      (.classDef "C" [] 1 []) = "method" :=
  ⟨(determine_object_type_priority false true (.classDef "Foo" [] 1 [])
      (.otherNode [])).2.1 rfl rfl,
    (determine_object_type_priority false false (.funcDef "g" [] 2 [])
      (.classDef "C" [] 1 [])).2.2.2.1 rfl rfl (by decide) (by decide)⟩

/-- C9: exclude patterns are evaluated before include patterns and any
exclude match rejects the file even when an include pattern also
matches; when include patterns are given the file must match at least
one; with no include patterns every non-excluded file is accepted; and
`auto_generate_stubs` on a filter-rejected file returns the empty list
without creating anything.  The claim's concrete examples hold under
the real glob matcher. -/
theorem filter_precedence_spec (m : String → String → Bool)
    (filePath root : FPath) (inc exc : Option (List String))
    (fs : FS) (pkgRoot : Option FPath) (render : RenderFn)
    (btd : FPath) (parsed : Option PyAst) (tdir : Option FPath)
    (dryRun : Bool) :
    ((exc.getD []).any (fun p => m (relPathStr filePath root) p) = true →
      _should_process_file m filePath root inc exc = false) ∧
    ((exc.getD []).any (fun p => m (relPathStr filePath root) p) = false →
      truthyList inc = true →
      _should_process_file m filePath root inc exc =
        (inc.getD []).any (fun p => m (relPathStr filePath root) p)) ∧
    ((exc.getD []).any (fun p => m (relPathStr filePath root) p) = false →
      truthyList inc = false →
      _should_process_file m filePath root inc exc = true) ∧
    (_should_process_file m filePath (pkgRoot.getD filePath.dropLast)
        inc exc = false →
      auto_generate_stubs fs pkgRoot render btd m filePath parsed tdir
        exc inc dryRun = .ok ([], [])) ∧
    (_should_process_file fnmatchModel
        ["root", "src", "migrations", "x.py"] ["root"] none
        (some ["*/migrations/*"]) = false ∧
      _should_process_file fnmatchModel
        ["root", "src", "migrations", "x.py"] ["root"]
        (some ["src/migrations/*"]) (some ["*/migrations/*"]) = false ∧
      auto_generate_stubs fs9 (some ["root"]) idRender ["root", "tpl"]
        fnmatchModel ["root", "src", "migrations", "x.py"]
        (some exTreeMethod) none (some ["*/migrations/*"])
        (some ["src/migrations/*"]) false = .ok ([], [])) := by
  refine ⟨?_, ?_, ?_, ?_, by decide, by decide, by rfl⟩
  · intro h
    simp [_should_process_file, h]
  · intro h1 h2
    simp [_should_process_file, h1, h2]
  · intro h1 h2
    simp [_should_process_file, h1, h2]
  · intro h
    cases hfe : fs.pathExists filePath <;>
      simp [auto_generate_stubs, hfe, h]

theorem filter_precedence_spec_witness :
    (((some ["*/migrations/*"] : Option (List String)).getD []).any
      (fun p => fnmatchModel
        (relPathStr ["root", "src", "migrations", "x.py"] ["root"]) p) =
          true) ∧
    _should_process_file fnmatchModel
      ["root", "src", "migrations", "x.py"] ["root"]
      (some ["src/migrations/*"]) (some ["*/migrations/*"]) = false ∧
    auto_generate_stubs fs9 (some ["root"]) idRender ["root", "tpl"]
      fnmatchModel ["root", "src", "migrations", "x.py"]
      (some exTreeMethod) none (some ["*/migrations/*"])
      (some ["src/migrations/*"]) false = .ok ([], []) :=
  ⟨by decide,
    (filter_precedence_spec fnmatchModel
      ["root", "src", "migrations", "x.py"] ["root"]
      (some ["src/migrations/*"]) (some ["*/migrations/*"]) fs9
      (some ["root"]) idRender ["root", "tpl"] (some exTreeMethod) none
      false).1 (by decide),
    (filter_precedence_spec fnmatchModel
      ["root", "src", "migrations", "x.py"] ["root"]
      (some ["src/migrations/*"]) (some ["*/migrations/*"]) fs9
      (some ["root"]) idRender ["root", "tpl"] (some exTreeMethod) none
      false).2.2.2.1 (by rfl)⟩

/-- C10: `show_doc` returns the cached hidden full-documentation
attribute when present — and annotation sets that attribute exactly
when retrieval succeeded — and otherwise performs a fresh retrieval
with no explicit override.  Hence for an entity registered with an
explicit override whose documentation did not resolve at annotation
time, `show_doc` ignores the registered override and resolves purely by
convention, and can return different content than a retrieval with that
override would (concretely demonstrated), or raise
`DocNotFoundError`. -/
theorem show_doc_cache_spec (fs fs0 : FS) (root root0 : Option FPath)
    (o : DObj) (c : String) (reg : Registry) (f : Option String)
    (e : DocNotFoundErr) :
    (o.docioFull = some c → show_doc fs root o = .ok c) ∧
    (o.docioFull = none → show_doc fs root o = get_doc fs root o none) ∧
    (get_doc fs0 root0 o f = .error e →
      (docioDecorate fs0 root0 reg o f).1.docioFull = o.docioFull) ∧
    (get_doc fs0 root0 o f = .ok c →
      (docioDecorate fs0 root0 reg o f).1.docioFull = some c) ∧
    (show_doc fs10b (some ["root"])
        ((docioDecorate emptyFS (some ["root"]) [] o10
          (some "custom.md")).1) =
        .ok "Documentation pending for thing" ∧
      get_doc fs10b (some ["root"])
        ((docioDecorate emptyFS (some ["root"]) [] o10
          (some "custom.md")).1) (some "custom.md") =
        .ok "OVERRIDE CONTENT" ∧
      ¬ (("Documentation pending for thing" : String) =
        "OVERRIDE CONTENT")) := by
  refine ⟨?_, ?_, ?_, ?_, by rfl, by rfl, by decide⟩
  · intro h
    simp [show_doc, h]
  · intro h
    simp [show_doc, h]
  · intro h
    simp [docioDecorate, h]
    split <;> simp
  · intro h
    simp [docioDecorate, h]

theorem show_doc_cache_spec_witness :
    ((docioDecorate wfs (some ["root"]) [] wObj none).1.docioFull =
      some "DocContent") ∧
    show_doc emptyFS none
      ((docioDecorate wfs (some ["root"]) [] wObj none).1) =
      .ok "DocContent" ∧
    show_doc emptyFS none o10 = get_doc emptyFS none o10 none :=
  ⟨by rfl,
    (show_doc_cache_spec emptyFS emptyFS none none
      ((docioDecorate wfs (some ["root"]) [] wObj none).1) "DocContent"
      [] none ⟨""⟩).1 (by rfl),
    (show_doc_cache_spec emptyFS emptyFS none none o10 "" [] none
      ⟨""⟩).2.1 (by rfl)⟩

end Docio
